import Mathlib

/-!
Verification of the calculation persistence and validation layer.

Entity layer: `src/app/models/calculation.py` — a polymorphic `Calculation`
hierarchy (Addition, Subtraction, Multiplication, Division) with a factory
`create` keyed by a case-insensitive operator-kind string, and a per-variant
`get_result`.

Schema layer: `src/app/schema/calculation.py` — pydantic shapes
`CalculationCreate` (field validators for `type`, `a`, `b`, plus an
after-model divide-by-zero check), `CalculationUpdate` (optional `a`, `b`,
no validators), and `CalculationResponse` (inherits the base validators and
adds `id` and `result`).

Numbers are modelled as exact rationals (`ℚ`); Python `str.lower()` is
modelled as per-character ASCII lowercasing.
-/

deriving instance DecidableEq for Except

/-- Model of Python str.lower() (per-character ASCII lowercasing, which is
what every operator-kind string in the repository exercises). -/
def pyLower (s : String) : String := String.mk (s.data.map Char.toLower)

/-- The four concrete subclasses of `Calculation` in
src/app/models/calculation.py (one constructor per Python class). -/
inductive CalcVariant where
  | addition
  | subtraction
  | multiplication
  | division
deriving DecidableEq, Repr

/-- The `polymorphic_identity` discriminant literal each subclass declares in
its `__mapper_args__`.  Source lines 78, 85, 92, 99; line 92 tags
`Multiplication` with the literal "subtraction", same as `Subtraction`. -/
def polymorphic_identity : CalcVariant → String
  | .addition => "addition"
  | .subtraction => "subtraction"
  | .multiplication => "subtraction"
  | .division => "division"

/-- A `Calculation` row: id (UUID, assigned by storage, so `none` until
persisted), owning user id, the runtime variant (Python class), and the two
float operands `a`, `b`. -/
structure Calculation where
  id : Option Nat
  user_id : Nat
  variant : CalcVariant
  a : ℚ
  b : ℚ
deriving DecidableEq, Repr

/-- The `type` column value a row carries: SQLAlchemy fills the
`polymorphic_on` column with the constructing class's
`polymorphic_identity`. -/
def Calculation.typeCol (c : Calculation) : String :=
  polymorphic_identity c.variant

/-- The `calculation_classes` dictionary of `AbstractCalculation.create`
(source lines 46–51), looked up at a lowercased key. -/
def calculation_classes (s : String) : Option CalcVariant :=
  if s = "addition" then some .addition
  else if s = "subtraction" then some .subtraction
  else if s = "multiplication" then some .multiplication
  else if s = "division" then some .division
  else none

/-- `AbstractCalculation.create` (source lines 43–55): dictionary lookup at
`calculation_type.lower()`; unknown kinds raise
`ValueError(f"Unsupported calculation type: {calculation_type}")` carrying
the original string; known kinds construct the matching class with the given
user_id, a, b. -/
def Calculation.create (calculation_type : String) (user_id : Nat) (a b : ℚ) :
    Except String Calculation :=
  match calculation_classes (pyLower calculation_type) with
  | some v => .ok { id := none, user_id := user_id, variant := v, a := a, b := b }
  | none => .error ("Unsupported calculation type: " ++ calculation_type)

/-- Polymorphic `get_result` (source lines 80–104): Addition returns a + b,
Subtraction a - b, Multiplication a * b, Division checks b == 0 on every
call and raises `ValueError("Division by zero not permitted.")`, otherwise
returns a / b. -/
def Calculation.get_result (c : Calculation) : Except String ℚ :=
  match c.variant with
  | .addition => .ok (c.a + c.b)
  | .subtraction => .ok (c.a - c.b)
  | .multiplication => .ok (c.a * c.b)
  | .division =>
      if c.b = 0 then .error "Division by zero not permitted."
      else .ok (c.a / c.b)

/-- A dynamically-typed Python value arriving at the schema boundary, as far
as the validators inspect it: a string, a number (int or float), or anything
else. -/
inductive Value where
  | vStr (s : String)
  | vNum (q : ℚ)
  | vOther
deriving DecidableEq, Repr

/-- The values of the `CalculationType` enum (source lines 111–116). -/
def calculationTypeValues : List String := ["add", "subtract", "multiply", "divide"]

/-- `CalculationBase.check_type_is_valid` (source lines 126–134), a
mode="before" field validator: non-strings are rejected, strings whose
lowercase form is not an enum value are rejected, accepted strings are
returned lowercased. -/
def check_type_is_valid (v : Value) : Except String String :=
  match v with
  | .vStr s =>
      if pyLower s ∈ calculationTypeValues then .ok (pyLower s)
      else .error "Type must be \x27add\x27, \x27subtract\x27, \x27multiply\x27 or \x27divide\x27"
  | _ => .error "Type must be a string"

/-- `CalculationBase.check_a_is_number` (source lines 136–141). -/
def check_a_is_number (v : Value) : Except String ℚ :=
  match v with
  | .vNum q => .ok q
  | _ => .error "First value should be a number"

/-- `CalculationBase.check_b_is_number` (source lines 143–148). -/
def check_b_is_number (v : Value) : Except String ℚ :=
  match v with
  | .vNum q => .ok q
  | _ => .error "Second value should be a number"

/-- A validated `CalculationBase` model instance. -/
structure CalculationBase where
  type : String
  a : ℚ
  b : ℚ
deriving DecidableEq, Repr

/-- `CalculationBase.check_div_by_zero` (source lines 150–154), a
mode="after" model validator on the already-validated instance. -/
def check_div_by_zero (m : CalculationBase) : Except String CalculationBase :=
  if m.type = "divide" ∧ m.b = 0 then .error "Cannot divide by zero" else .ok m

/-- The error contribution of one field validator to a pydantic
ValidationError (empty when the field validated). -/
def errOf {α : Type} : Except String α → List String
  | .ok _ => []
  | .error e => [e]

/-- All per-field errors of a `CalculationBase` payload, in field
declaration order (type, a, b); pydantic collects them all. -/
def fieldErrors (tv av bv : Value) : List String :=
  errOf (check_type_is_valid tv) ++ errOf (check_a_is_number av)
    ++ errOf (check_b_is_number bv)

/-- Validation pipeline of `CalculationCreate` (inherited from
`CalculationBase`): pydantic runs the per-field validators first and
independently, collecting every field error; the mode="after" model
validator `check_div_by_zero` runs only when all fields validated. -/
def CalculationCreate.validate (tv av bv : Value) :
    Except (List String) CalculationBase :=
  match check_type_is_valid tv, check_a_is_number av, check_b_is_number bv with
  | .ok t, .ok a, .ok b =>
      match check_div_by_zero { type := t, a := a, b := b } with
      | .ok m => .ok m
      | .error e => .error [e]
  | rt, ra, rb => .error (errOf rt ++ errOf ra ++ errOf rb)

/-- A validated `CalculationResponse` instance (source lines 187–218):
id, type, a, b plus the computed `result`. -/
structure CalculationResponse where
  id : Nat
  type : String
  a : ℚ
  b : ℚ
  result : ℚ
deriving DecidableEq, Repr

/-- Validation pipeline of `CalculationResponse`: it subclasses
`CalculationBase`, so pydantic applies the inherited field validators
(`check_type_is_valid`, `check_a_is_number`, `check_b_is_number`) and the
inherited after-model validator `check_div_by_zero` to its fields; `result`
has no custom validator. -/
def CalculationResponse.validate (idv : Nat) (tv av bv : Value) (result : ℚ) :
    Except (List String) CalculationResponse :=
  match check_type_is_valid tv, check_a_is_number av, check_b_is_number bv with
  | .ok t, .ok a, .ok b =>
      if t = "divide" ∧ b = 0 then .error ["Cannot divide by zero"]
      else .ok { id := idv, type := t, a := a, b := b, result := result }
  | rt, ra, rb => .error (errOf rt ++ errOf ra ++ errOf rb)

/-- Building a `CalculationResponse` from a persisted entity
(`from_attributes=True`): the entity supplies its `type` column, operands
`a`, `b`, and its computed `get_result()` as the `result` field. -/
def CalculationResponse.ofEntity (idv : Nat) (c : Calculation) :
    Except (List String) CalculationResponse :=
  match c.get_result with
  | .error e => .error [e]
  | .ok r => CalculationResponse.validate idv (.vStr c.typeCol) (.vNum c.a) (.vNum c.b) r

/-- A `CalculationUpdate` payload (source lines 168–185): only the optional
fields `a` and `b`; there is no `type` field. -/
structure CalculationUpdate where
  a : Option ℚ
  b : Option ℚ
deriving DecidableEq, Repr

/-- Validation of `CalculationUpdate`: the class subclasses `BaseModel`
directly and declares no field or model validators, so every payload of the
declared field types is accepted unchanged. -/
def CalculationUpdate.validate (av bv : Option ℚ) :
    Except (List String) CalculationUpdate :=
  .ok { a := av, b := bv }

/-- Modelled from the spec: the route that applies an accepted
`CalculationUpdate` payload to a stored `Calculation` is not among the
analysed sources; per the spec the update path modifies only the operands
`a` and `b` of the existing record. -/
def applyUpdate (c : Calculation) (u : CalculationUpdate) : Calculation :=
  { c with a := u.a.getD c.a, b := u.b.getD c.b }

example : Calculation.create "AdDiTiOn" 0 10 (17/2) =
    .ok { id := none, user_id := 0, variant := .addition, a := 10, b := 17/2 } := rfl

example : Calculation.create "power" 0 12 13 =
    .error "Unsupported calculation type: power" := rfl

example : Calculation.get_result ⟨none, 0, .division, 10, 17/2⟩ = .ok (20/17) := by
  norm_num [Calculation.get_result]

example : check_type_is_valid (.vStr "AdD") = .ok "add" := rfl

example : CalculationCreate.validate (.vStr "Divide") (.vNum 4) (.vNum 0) =
    .error ["Cannot divide by zero"] := rfl

example : CalculationCreate.validate (.vNum 13) (.vNum 4) (.vStr "five") =
    .error ["Type must be a string", "Second value should be a number"] := rfl

/-- C1: `get_result` is a pure function of (kind, a, b): entities agreeing on
variant and operands compute the same result; Addition returns a + b,
Subtraction a - b, Multiplication a * b, Division a / b when b is nonzero;
and at a = 10, b = 8.5: addition 18.5, subtraction 1.5, multiplication 85.0,
division 20/17, whose distance to the printed decimal 1.1764705882352942 is
below a half-ulp of a double in [1, 2) (the decimal is exactly 20/17 rounded
to double precision). -/
theorem get_result_pure_and_formulas :
    (∀ c d : Calculation, c.variant = d.variant → c.a = d.a → c.b = d.b →
        c.get_result = d.get_result)
  ∧ (∀ c : Calculation, c.variant = .addition → c.get_result = .ok (c.a + c.b))
  ∧ (∀ c : Calculation, c.variant = .subtraction → c.get_result = .ok (c.a - c.b))
  ∧ (∀ c : Calculation, c.variant = .multiplication → c.get_result = .ok (c.a * c.b))
  ∧ (∀ c : Calculation, c.variant = .division → c.b ≠ 0 → c.get_result = .ok (c.a / c.b))
  ∧ Calculation.get_result ⟨none, 0, .addition, 10, 17/2⟩ = .ok (37/2)
  ∧ Calculation.get_result ⟨none, 0, .subtraction, 10, 17/2⟩ = .ok (3/2)
  ∧ Calculation.get_result ⟨none, 0, .multiplication, 10, 17/2⟩ = .ok 85
  ∧ Calculation.get_result ⟨none, 0, .division, 10, 17/2⟩ = .ok (20/17)
  ∧ |(20 : ℚ)/17 - 11764705882352942/10^16| < 1/2^53 := by
  refine ⟨?_, ?_, ?_, ?_, ?_, ?_, ?_, ?_, ?_, ?_⟩
  · intro c d hv ha hb
    simp only [Calculation.get_result, hv, ha, hb]
  · intro c h; simp [Calculation.get_result, h]
  · intro c h; simp [Calculation.get_result, h]
  · intro c h; simp [Calculation.get_result, h]
  · intro c h hb; simp [Calculation.get_result, h, hb]
  · norm_num [Calculation.get_result]
  · norm_num [Calculation.get_result]
  · norm_num [Calculation.get_result]
  · norm_num [Calculation.get_result]
  · rw [abs_sub_lt_iff]; norm_num

/-- Witness for C1 at a concrete division entity with nonzero divisor. -/
theorem get_result_pure_and_formulas_witness :
    Calculation.get_result ⟨none, 1, .division, 10, 1⟩ = .ok (10 / 1) :=
  get_result_pure_and_formulas.2.2.2.2.1 ⟨none, 1, .division, 10, 1⟩ rfl one_ne_zero

/-- C2: `Calculation.create` matches the lowercased kind string against the
four known classes, constructs that class with the given owner and operands,
and raises an error carrying the original unmatched string otherwise (no
entity value is produced on failure). -/
theorem create_dispatch (s : String) (uid : Nat) (a b : ℚ) :
    (pyLower s = "addition" →
        Calculation.create s uid a b = .ok ⟨none, uid, .addition, a, b⟩)
  ∧ (pyLower s = "subtraction" →
        Calculation.create s uid a b = .ok ⟨none, uid, .subtraction, a, b⟩)
  ∧ (pyLower s = "multiplication" →
        Calculation.create s uid a b = .ok ⟨none, uid, .multiplication, a, b⟩)
  ∧ (pyLower s = "division" →
        Calculation.create s uid a b = .ok ⟨none, uid, .division, a, b⟩)
  ∧ (pyLower s ∉ (["addition", "subtraction", "multiplication", "division"] : List String) →
        Calculation.create s uid a b = .error ("Unsupported calculation type: " ++ s)) := by
  refine ⟨?_, ?_, ?_, ?_, ?_⟩ <;> intro h
  · simp [Calculation.create, calculation_classes, h]
  · simp [Calculation.create, calculation_classes, h]
  · simp [Calculation.create, calculation_classes, h]
  · simp [Calculation.create, calculation_classes, h]
  · simp only [List.mem_cons, List.not_mem_nil, or_false, not_or] at h
    obtain ⟨h1, h2, h3, h4⟩ := h
    simp [Calculation.create, calculation_classes, h1, h2, h3, h4]

/-- Witness for C2: "AdDiTiOn" and "addition" both construct an Addition;
"power" fails carrying "power". -/
theorem create_dispatch_witness :
    Calculation.create "AdDiTiOn" 3 10 (17/2) = .ok ⟨none, 3, .addition, 10, 17/2⟩
  ∧ Calculation.create "addition" 3 10 (17/2) = .ok ⟨none, 3, .addition, 10, 17/2⟩
  ∧ Calculation.create "power" 4 12 13 = .error "Unsupported calculation type: power" :=
  ⟨(create_dispatch "AdDiTiOn" 3 10 (17/2)).1 rfl,
   (create_dispatch "addition" 3 10 (17/2)).1 rfl,
   (create_dispatch "power" 4 12 13).2.2.2.2 (by decide)⟩

/-- C3: a Division entity's `get_result` raises exactly when b = 0,
whatever a is; the check is re-evaluated on the operands at every call (the
result is a function of the current b only), and with b ≠ 0 it returns
a / b. -/
theorem division_by_zero_iff (idv : Option Nat) (uid : Nat) (a b : ℚ) :
    ((∃ e, Calculation.get_result ⟨idv, uid, .division, a, b⟩ = .error e) ↔ b = 0)
  ∧ (b = 0 → Calculation.get_result ⟨idv, uid, .division, a, b⟩ =
        .error "Division by zero not permitted.")
  ∧ (b ≠ 0 → Calculation.get_result ⟨idv, uid, .division, a, b⟩ = .ok (a / b)) := by
  by_cases hb : b = 0 <;>
    simp [Calculation.get_result, hb]

/-- Witness for C3: at a = 5, b = 0 the division entity raises. -/
theorem division_by_zero_iff_witness :
    Calculation.get_result ⟨none, 0, .division, 5, 0⟩ =
      .error "Division by zero not permitted." :=
  (division_by_zero_iff none 0 5 0).2.1 rfl

/-- C4: the Multiplication class is tagged with the discriminant literal
"subtraction" — the same literal as Subtraction and not a distinct
"multiplication" one — while its `get_result` still computes a * b. -/
theorem multiplication_shares_subtraction_discriminant :
    polymorphic_identity .multiplication = "subtraction"
  ∧ polymorphic_identity .multiplication = polymorphic_identity .subtraction
  ∧ polymorphic_identity .multiplication ≠ "multiplication"
  ∧ (∀ c : Calculation, c.variant = .multiplication →
        c.typeCol = "subtraction" ∧ c.get_result = .ok (c.a * c.b)) := by
  refine ⟨rfl, rfl, by decide, ?_⟩
  intro c h
  exact ⟨by simp [Calculation.typeCol, h, polymorphic_identity],
         by simp [Calculation.get_result, h]⟩

/-- Witness for C4 at a concrete Multiplication entity. -/
theorem multiplication_shares_subtraction_discriminant_witness :
    Calculation.typeCol ⟨none, 0, .multiplication, 10, 17/2⟩ = "subtraction"
  ∧ Calculation.get_result ⟨none, 0, .multiplication, 10, 17/2⟩ = .ok (10 * (17/2)) :=
  multiplication_shares_subtraction_discriminant.2.2.2 ⟨none, 0, .multiplication, 10, 17/2⟩ rfl

/-- C5: the create shape's type field rejects non-strings with the
"must be a string" error, rejects strings whose lowercase form is not one of
add/subtract/multiply/divide with the "must be one of" error, and normalizes
every accepted string to lowercase; the operand validators reject
non-numbers with operand-specific errors. -/
theorem type_field_validation :
    (∀ q : ℚ, check_type_is_valid (.vNum q) = .error "Type must be a string")
  ∧ check_type_is_valid .vOther = .error "Type must be a string"
  ∧ (∀ s : String, pyLower s ∉ calculationTypeValues →
        check_type_is_valid (.vStr s) =
          .error "Type must be \x27add\x27, \x27subtract\x27, \x27multiply\x27 or \x27divide\x27")
  ∧ (∀ s : String, pyLower s ∈ calculationTypeValues →
        check_type_is_valid (.vStr s) = .ok (pyLower s))
  ∧ (∀ s : String, check_a_is_number (.vStr s) = .error "First value should be a number")
  ∧ check_a_is_number .vOther = .error "First value should be a number"
  ∧ (∀ s : String, check_b_is_number (.vStr s) = .error "Second value should be a number")
  ∧ check_b_is_number .vOther = .error "Second value should be a number" := by
  refine ⟨fun q => rfl, rfl, ?_, ?_, fun s => rfl, rfl, fun s => rfl, rfl⟩
  · intro s h; simp [check_type_is_valid, h]
  · intro s h; simp [check_type_is_valid, h]

/-- Witness for C5: "AdD" normalizes to "add"; "invalid" gets the
"must be one of" error; the number 13 gets the "must be a string" error. -/
theorem type_field_validation_witness :
    check_type_is_valid (.vStr "AdD") = .ok (pyLower "AdD")
  ∧ check_type_is_valid (.vStr "invalid") =
      .error "Type must be \x27add\x27, \x27subtract\x27, \x27multiply\x27 or \x27divide\x27"
  ∧ check_type_is_valid (.vNum 13) = .error "Type must be a string" :=
  ⟨type_field_validation.2.2.2.1 "AdD" (by decide),
   type_field_validation.2.2.1 "invalid" (by decide),
   type_field_validation.1 13⟩

/-- C6: per-field checks run first and independently — when any fails, the
reported errors are exactly the per-field ones (in field order), and the
cross-field "Cannot divide by zero" message is never among them; the
divide-by-zero check runs only after all fields validate, rejecting a
normalized "divide" with b = 0. -/
theorem create_validation_ordering (tv av bv : Value) :
    (∀ t a b, check_type_is_valid tv = .ok t → check_a_is_number av = .ok a →
        check_b_is_number bv = .ok b →
        CalculationCreate.validate tv av bv =
          if t = "divide" ∧ b = 0 then .error ["Cannot divide by zero"]
          else .ok { type := t, a := a, b := b })
  ∧ (fieldErrors tv av bv ≠ [] →
        CalculationCreate.validate tv av bv = .error (fieldErrors tv av bv))
  ∧ "Cannot divide by zero" ∉ fieldErrors tv av bv := by
  refine ⟨?_, ?_, ?_⟩
  · intro t a b ht ha hb
    by_cases hd : t = "divide" ∧ b = 0
    · simp [CalculationCreate.validate, ht, ha, hb, check_div_by_zero, hd]
    · simp [CalculationCreate.validate, ht, ha, hb, check_div_by_zero, hd]
  · intro hne
    rcases hrt : check_type_is_valid tv with et | t <;>
      rcases hra : check_a_is_number av with ea | a <;>
        rcases hrb : check_b_is_number bv with eb | b <;>
          simp_all [CalculationCreate.validate, fieldErrors, errOf]
  · rcases tv with s | q | _ <;> rcases av with s2 | q2 | _ <;> rcases bv with s3 | q3 | _ <;>
      simp only [fieldErrors, check_type_is_valid, check_a_is_number, check_b_is_number] <;>
      (try split) <;> simp only [errOf] <;> decide

/-- Witness for C6: a valid-fields divide-by-zero payload is rejected by the
cross-field check; a payload with a bad type and a bad b reports exactly the
two per-field errors. -/
theorem create_validation_ordering_witness :
    CalculationCreate.validate (.vStr "Divide") (.vNum 4) (.vNum 0) =
      .error ["Cannot divide by zero"]
  ∧ CalculationCreate.validate (.vNum 13) (.vNum 4) (.vStr "five") =
      .error (fieldErrors (.vNum 13) (.vNum 4) (.vStr "five")) :=
  ⟨by
    have h := (create_validation_ordering (.vStr "Divide") (.vNum 4) (.vNum 0)).1
      "divide" 4 0 rfl rfl rfl
    simpa using h,
   (create_validation_ordering (.vNum 13) (.vNum 4) (.vStr "five")).2.1 (by decide)⟩

/-- C7: every entity the factory constructs carries an operator-kind column
value drawn from the closed set {addition, subtraction, multiplication,
division}, and any other kind string makes the factory raise instead of
constructing anything. -/
theorem operator_kind_closed (s : String) (uid : Nat) (a b : ℚ) :
    (∀ c : Calculation, Calculation.create s uid a b = .ok c →
        c.typeCol ∈ (["addition", "subtraction", "multiplication", "division"] : List String))
  ∧ (pyLower s ∉ (["addition", "subtraction", "multiplication", "division"] : List String) →
        ∃ e, Calculation.create s uid a b = .error e) := by
  constructor
  · intro c hc
    rcases hm : calculation_classes (pyLower s) with _ | v
    · simp [Calculation.create, hm] at hc
    · simp only [Calculation.create, hm] at hc
      cases hc
      cases v <;> simp [Calculation.typeCol, polymorphic_identity]
  · intro h
    simp only [List.mem_cons, List.not_mem_nil, or_false, not_or] at h
    obtain ⟨h1, h2, h3, h4⟩ := h
    refine ⟨"Unsupported calculation type: " ++ s, ?_⟩
    simp [Calculation.create, calculation_classes, h1, h2, h3, h4]

/-- Witness for C7: the factory-built Addition entity carries a kind in the
closed set, and "power" makes the factory raise. -/
theorem operator_kind_closed_witness :
    Calculation.typeCol ⟨none, 0, .addition, 1, 2⟩ ∈
      (["addition", "subtraction", "multiplication", "division"] : List String)
  ∧ ∃ e, Calculation.create "power" 0 12 13 = .error e :=
  ⟨(operator_kind_closed "addition" 0 1 2).1 ⟨none, 0, .addition, 1, 2⟩ rfl,
   (operator_kind_closed "power" 0 12 13).2 (by decide)⟩

/-- Helper: no entity discriminant string is among the schema's accepted
type values, so the inherited type validator rejects every entity `type`
column. -/
theorem typeCol_rejected_by_schema (v : CalcVariant) :
    check_type_is_valid (.vStr (polymorphic_identity v)) =
      .error "Type must be \x27add\x27, \x27subtract\x27, \x27multiply\x27 or \x27divide\x27" := by
  cases v <;> rfl

/-- C8 counterexample: a factory-built Addition entity has a computable
result, yet building the response shape from its (type, a, b) and computed
result is rejected, because the entity kind string "addition" is not among
the schema's accepted values add/subtract/multiply/divide. -/
theorem response_roundtrip_counterexample :
    Calculation.create "addition" 7 3 4 = .ok ⟨none, 7, .addition, 3, 4⟩
  ∧ Calculation.get_result ⟨none, 7, .addition, 3, 4⟩ = .ok 7
  ∧ CalculationResponse.ofEntity 1 ⟨none, 7, .addition, 3, 4⟩ =
      .error ["Type must be \x27add\x27, \x27subtract\x27, \x27multiply\x27 or \x27divide\x27"] :=
  ⟨rfl, by norm_num [Calculation.get_result], rfl⟩

/-- C8 amended: for every factory-built entity with a computable result,
response construction from its (type, a, b) plus the computed result is
rejected with the "must be one of" type error (entity kind strings are
disjoint from the schema set); whenever a response shape does validate, its
`result` field equals the computed result supplied for it. -/
theorem response_roundtrip_amended (s : String) (uid idv : Nat) (a b r : ℚ)
    (c : Calculation) :
    (Calculation.create s uid a b = .ok c → c.get_result = .ok r →
        CalculationResponse.ofEntity idv c =
          .error ["Type must be \x27add\x27, \x27subtract\x27, \x27multiply\x27 or \x27divide\x27"])
  ∧ (∀ t av bv resp,
        CalculationResponse.validate idv (.vStr t) (.vNum av) (.vNum bv) r = .ok resp →
        resp.result = r) := by
  constructor
  · intro hc hr
    rcases hm : calculation_classes (pyLower s) with _ | v
    · simp [Calculation.create, hm] at hc
    · simp only [Calculation.create, hm] at hc
      cases hc
      simp [CalculationResponse.ofEntity, hr, CalculationResponse.validate,
        Calculation.typeCol, typeCol_rejected_by_schema, check_a_is_number,
        check_b_is_number, errOf]
  · intro t av bv resp h
    rcases ht : check_type_is_valid (.vStr t) with e | t2
    · simp [CalculationResponse.validate, ht, check_a_is_number, check_b_is_number] at h
    · simp only [CalculationResponse.validate, ht, check_a_is_number, check_b_is_number] at h
      split at h
      · cases h
      · cases h
        rfl

/-- Witness for C8 amended, at the factory-built Addition entity. -/
theorem response_roundtrip_amended_witness :
    CalculationResponse.ofEntity 1 ⟨none, 7, .addition, 3, 4⟩ =
      .error ["Type must be \x27add\x27, \x27subtract\x27, \x27multiply\x27 or \x27divide\x27"] :=
  (response_roundtrip_amended "addition" 7 1 3 4 (3 + 4) ⟨none, 7, .addition, 3, 4⟩).1 rfl rfl

/-- C9: applying an accepted update payload changes at most the operands —
id, user_id, variant and the kind column are untouched; a present field
overwrites the operand and an absent one leaves it as stored. -/
theorem update_preserves_non_operand_fields (c : Calculation) (u : CalculationUpdate) :
    (applyUpdate c u).id = c.id
  ∧ (applyUpdate c u).user_id = c.user_id
  ∧ (applyUpdate c u).variant = c.variant
  ∧ (applyUpdate c u).typeCol = c.typeCol
  ∧ (∀ x, u.a = some x → (applyUpdate c u).a = x)
  ∧ (u.a = none → (applyUpdate c u).a = c.a)
  ∧ (∀ x, u.b = some x → (applyUpdate c u).b = x)
  ∧ (u.b = none → (applyUpdate c u).b = c.b) := by
  refine ⟨rfl, rfl, rfl, rfl, ?_, ?_, ?_, ?_⟩
  · intro x h; simp [applyUpdate, h]
  · intro h; simp [applyUpdate, h]
  · intro x h; simp [applyUpdate, h]
  · intro h; simp [applyUpdate, h]

/-- Witness for C9: a payload setting only b leaves the kind column of a
stored Division record unchanged and sets b. -/
theorem update_preserves_non_operand_fields_witness :
    (applyUpdate ⟨some 5, 2, .division, 9, 3⟩ ⟨none, some 0⟩).typeCol =
      Calculation.typeCol ⟨some 5, 2, .division, 9, 3⟩
  ∧ (applyUpdate ⟨some 5, 2, .division, 9, 3⟩ ⟨none, some 0⟩).b = 0
  ∧ (applyUpdate ⟨some 5, 2, .division, 9, 3⟩ ⟨none, some 0⟩).a = 9 :=
  ⟨(update_preserves_non_operand_fields ⟨some 5, 2, .division, 9, 3⟩ ⟨none, some 0⟩).2.2.2.1,
   (update_preserves_non_operand_fields ⟨some 5, 2, .division, 9, 3⟩ ⟨none, some 0⟩).2.2.2.2.2.2.1
     0 rfl,
   (update_preserves_non_operand_fields ⟨some 5, 2, .division, 9, 3⟩ ⟨none, some 0⟩).2.2.2.2.2.1
     rfl⟩

/-- C10: the update shape runs none of the create shape's validators —
every payload of the declared field shapes is accepted unchanged, in
particular one setting b to 0, which the create shape would reject for a
divide; after such an update on a division record the only guard left is
`get_result`, which then raises the division-by-zero error. -/
theorem update_shape_skips_validators (av bv : Option ℚ) :
    CalculationUpdate.validate av bv = .ok { a := av, b := bv }
  ∧ CalculationUpdate.validate av (some 0) = .ok { a := av, b := some 0 }
  ∧ (∀ a : ℚ, CalculationCreate.validate (.vStr "divide") (.vNum a) (.vNum 0) =
        .error ["Cannot divide by zero"])
  ∧ (∀ c : Calculation, c.variant = .division →
        (applyUpdate c { a := av, b := some 0 }).get_result =
          .error "Division by zero not permitted.") := by
  refine ⟨rfl, rfl, ?_, ?_⟩
  · intro a
    simp [CalculationCreate.validate, check_type_is_valid, check_a_is_number,
      check_b_is_number, check_div_by_zero, calculationTypeValues, pyLower]
  · intro c h
    simp [applyUpdate, Calculation.get_result, h]

/-- Witness for C10: a b = 0 update payload is accepted, and the updated
Division record's `get_result` raises. -/
theorem update_shape_skips_validators_witness :
    CalculationUpdate.validate (some 4) (some 0) = .ok { a := some 4, b := some 0 }
  ∧ (applyUpdate ⟨some 5, 2, .division, 9, 3⟩ { a := some 4, b := some 0 }).get_result =
      .error "Division by zero not permitted." :=
  ⟨(update_shape_skips_validators (some 4) (some 0)).1,
   (update_shape_skips_validators (some 4) (some 0)).2.2.2 ⟨some 5, 2, .division, 9, 3⟩ rfl⟩
